import Mathlib

/-!
# Weather-App: a shallow embedding of `script.js`

The page script is one class, `WeatherApp`.  Its methods are embedded here as
pure functions over an explicit page state (`DOM`) and an explicit browser
environment (`Env`: the two remote services and the local time zone).  The platform primitives the script calls
(`String.prototype.trim`, `parseFloat`, `Number.prototype.toFixed`,
`Math.round`, number-to-string conversion, `new Date(isoDate).getDay()`) are
embedded after ECMA-262, over an exact representation of IEEE-754 doubles.
-/

namespace WeatherApp

/-! ## Platform: strings -/

/-- ECMA-262 `WhiteSpace` and `LineTerminator` code points: what
`String.prototype.trim` strips and what `parseFloat` skips in front. -/
def isJSWhiteSpace (c : Char) : Bool :=
  let n := c.toNat
  n = 0x09 || n = 0x0A || n = 0x0B || n = 0x0C || n = 0x0D || n = 0x20 ||
  n = 0xA0 || n = 0x1680 || (0x2000 ≤ n && n ≤ 0x200A) ||
  n = 0x2028 || n = 0x2029 || n = 0x202F || n = 0x205F || n = 0x3000 || n = 0xFEFF

/-- Characters of `s` with the leading white space removed. -/
def trimStart (cs : List Char) : List Char :=
  cs.dropWhile isJSWhiteSpace

/-- Characters of `s` with the trailing white space removed. -/
def trimEnd (cs : List Char) : List Char :=
  (cs.reverse.dropWhile isJSWhiteSpace).reverse

/-- The method `String.prototype.trim`. -/
def jsTrim (s : String) : String :=
  String.mk (trimEnd (trimStart s.data))

/-! ## Platform: numbers -/

/-- A JavaScript Number: an IEEE-754 double.  `fin neg m e` is the finite value
`(-1)^neg * m * 2^e`, kept in the format's own normal form: `2^52 ≤ m < 2^53`
with `-1074 ≤ e ≤ 971`, or `m < 2^52` with `e = -1074` (subnormals and the two
zeros). -/
inductive JSNum where
  | nan
  | inf (neg : Bool)
  | fin (neg : Bool) (m : Nat) (e : Int)
  deriving DecidableEq, Repr

/-- Bit length minus one, by halving: `floorLog2Aux n n = floor (log2 n)` for
`n > 0`. -/
def floorLog2Aux : Nat → Nat → Nat
  | 0, _ => 0
  | fuel + 1, n => if n < 2 then 0 else floorLog2Aux fuel (n / 2) + 1

/-- The integer part of the binary logarithm of `n` (`0` for `n = 0`). -/
def floorLog2 (n : Nat) : Nat :=
  floorLog2Aux n n

/-- The double nearest to the rational `p / q` (`q > 0`), ties to the even
significand, overflowing to an infinity: the rounding ECMA-262 applies to every
mathematical value it turns into a Number. -/
def roundToDouble (neg : Bool) (p q : Nat) : JSNum :=
  if p = 0 then .fin neg 0 (-1074)
  else
    let a : Int := (floorLog2 p : Nat)
    let b : Int := (floorLog2 q : Nat)
    -- l = floor (log2 (p / q))
    let l : Int := if q * 2 ^ (a - b).toNat ≤ p * 2 ^ (b - a).toNat then a - b else a - b - 1
    let e : Int := max (l - 52) (-1074)
    let num := p * 2 ^ (-e).toNat
    let den := q * 2 ^ e.toNat
    let m0 := num / den
    let r := num % den
    let m := if den < 2 * r ∨ (2 * r = den ∧ m0 % 2 = 1) then m0 + 1 else m0
    let (m, e) := if m = 2 ^ 53 then (2 ^ 52, e + 1) else (m, e)
    if 971 < e then .inf neg else .fin neg m e

/-- Value of a run of decimal digits. -/
def digitsToNat (cs : List Char) : Nat :=
  cs.foldl (fun acc c => 10 * acc + (c.toNat - 48)) 0

/-- The `ExponentPart` of a `StrDecimalLiteral`, when the input continues with
one: `e` or `E`, an optional sign, and at least one digit. -/
def parseExponent (cs : List Char) : Int :=
  match cs with
  | c :: rest =>
    if c = 'e' ∨ c = 'E' then
      match rest with
      | '+' :: ds =>
        let d := ds.takeWhile Char.isDigit
        if d.isEmpty then 0 else (digitsToNat d : Nat)
      | '-' :: ds =>
        let d := ds.takeWhile Char.isDigit
        if d.isEmpty then 0 else -((digitsToNat d : Nat) : Int)
      | ds =>
        let d := ds.takeWhile Char.isDigit
        if d.isEmpty then 0 else (digitsToNat d : Nat)
    else 0
  | [] => 0

/-- The unsigned part of `parseFloat`: the longest prefix that is a
`StrUnsignedDecimalLiteral`, rounded to a double; `NaN` when there is none. -/
def parseUnsigned (neg : Bool) (cs : List Char) : JSNum :=
  if "Infinity".data.isPrefixOf cs then .inf neg
  else
    let ip := cs.takeWhile Char.isDigit
    let afterInt := cs.dropWhile Char.isDigit
    let (fp, rest) :=
      match afterInt with
      | '.' :: r =>
        let f := r.takeWhile Char.isDigit
        -- a lone "." with no digit on either side is not part of a literal
        if ip.isEmpty ∧ f.isEmpty then ([], afterInt) else (f, r.dropWhile Char.isDigit)
      | _ => ([], afterInt)
    if ip.isEmpty ∧ fp.isEmpty then .nan
    else
      let mant := digitsToNat (ip ++ fp)
      let ex : Int := parseExponent rest - (fp.length : Nat)
      roundToDouble neg (mant * 10 ^ ex.toNat) (10 ^ (-ex).toNat)

/-- The global `parseFloat`, applied to a string. -/
def parseFloat (s : String) : JSNum :=
  match trimStart s.data with
  | '-' :: cs => parseUnsigned true cs
  | '+' :: cs => parseUnsigned false cs
  | cs => parseUnsigned false cs

/-- Decimal digits of a natural number. -/
def natDigits (n : Nat) : List Char :=
  Nat.toDigits 10 n

/-- Number of decimal digits of a natural number (`1` for `0`). -/
def numDigits (n : Nat) : Nat :=
  (natDigits n).length

/-- The shortest decimal `(s, n)` with `k` digits (`10^(k-1) ≤ s < 10^k`) for
which `s * 10^(n-k)` rounds to the positive double `m * 2^e`, if there is one
with exactly `k` digits; of two candidates the one nearer the double. -/
def shortestWith (m : Nat) (e : Int) (n0 : Int) (k : Nat) : Option (Nat × Int) :=
  let p := m * 2 ^ e.toNat
  let q := 2 ^ (-e).toNat
  let sc : Int := n0 - (k : Nat)
  -- t = x / 10^sc as tp / tq
  let tp := p * 10 ^ (-sc).toNat
  let tq := q * 10 ^ sc.toNat
  let lo := tp / tq
  let hi := lo + 1
  let okLo := decide (roundToDouble false (lo * 10 ^ sc.toNat) (10 ^ (-sc).toNat) = .fin false m e)
  let okHi := decide (roundToDouble false (hi * 10 ^ sc.toNat) (10 ^ (-sc).toNat) = .fin false m e)
  let hiOut : Nat × Int := if hi = 10 ^ k then (10 ^ (k - 1), n0 + 1) else (hi, n0)
  let r := tp % tq
  if okLo ∧ okHi then
    (if 2 * r < tq ∨ (2 * r = tq ∧ lo % 2 = 0) then some (lo, n0) else some hiOut)
  else if okLo then some (lo, n0)
  else if okHi then some hiOut
  else none

/-- Search for the least digit count `k`, from `k` upward. -/
def shortestFrom (m : Nat) (e : Int) (n0 : Int) (k : Nat) : Nat → Nat × Int
  | 0 => (m * 2 ^ e.toNat * 10 ^ (17 - n0).toNat / (2 ^ (-e).toNat * 10 ^ (n0 - 17).toNat), n0)
  | fuel + 1 =>
    match shortestWith m e n0 k with
    | some r => r
    | none => shortestFrom m e n0 (k + 1) fuel

/-- Drop trailing zero digits of a digit string, keeping at least one digit. -/
def stripZeros (ds : List Char) : List Char :=
  match (ds.reverse.dropWhile (fun c => c = '0')).reverse with
  | [] => ['0']
  | r => r

/-- The operation `Number::toString` in radix 10 for a positive finite double
`m * 2^e`. -/
def positiveToString (m : Nat) (e : Int) : String :=
  let p := m * 2 ^ e.toNat
  let q := 2 ^ (-e).toNat
  -- n0 with 10^(n0-1) ≤ x < 10^n0
  let n0 : Int :=
    if q ≤ p then (numDigits (p / q) : Nat)
    else 1 - ((numDigits ((q + p - 1) / p - 1) : Nat) : Int)
  let (s, n) := shortestFrom m e n0 1 17
  let ds := stripZeros (natDigits s)
  let k : Int := (ds.length : Nat)
  if k ≤ n ∧ n ≤ 21 then
    String.mk (ds ++ List.replicate (n - k).toNat '0')
  else if 0 < n ∧ n ≤ 21 then
    String.mk (ds.take n.toNat ++ '.' :: ds.drop n.toNat)
  else if -6 < n ∧ n ≤ 0 then
    String.mk ('0' :: '.' :: List.replicate (-n).toNat '0' ++ ds)
  else
    let ex : Int := n - 1
    let exs := (if ex < 0 then "e-" else "e+") ++ String.mk (natDigits ex.natAbs)
    match ds with
    | [d] => String.mk [d] ++ exs
    | d :: more => String.mk (d :: '.' :: more) ++ exs
    | [] => exs

/-- The operation `Number::toString` in radix 10: what a template literal or a `textContent`
assignment makes of a Number. -/
def numberToString : JSNum → String
  | .nan => "NaN"
  | .inf false => "Infinity"
  | .inf true => "-Infinity"
  | .fin neg m e =>
    if m = 0 then "0"
    else (if neg then "-" else "") ++ positiveToString m e

/-- The method `Number.prototype.toFixed`, called with 2 fraction digits. -/
def toFixed2 (x : JSNum) : String :=
  match x with
  | .fin neg m e =>
    let p := m * 2 ^ e.toNat
    let q := 2 ^ (-e).toNat
    let sign := if neg ∧ m ≠ 0 then "-" else ""
    if 10 ^ 21 * q ≤ p then sign ++ positiveToString m e
    else
      -- the integer n nearest to 100 * x, the larger of two equally near
      let n := (200 * p + q) / (2 * q)
      let ds := natDigits n
      let ds := List.replicate (3 - ds.length) '0' ++ ds
      sign ++ String.mk (ds.take (ds.length - 2) ++ '.' :: ds.drop (ds.length - 2))
  | x => numberToString x

/-- The function `Math.round`: the nearest integer, the one toward `+∞` of two equally
near; an argument in `[-0.5, 0)` gives `-0`. -/
def mathRound (x : JSNum) : JSNum :=
  match x with
  | .fin neg m e =>
    if 0 ≤ e then x
    else
      let d := 2 ^ (-e).toNat
      if neg then
        if 2 * m ≤ d then .fin true 0 (-1074)
        else roundToDouble true ((2 * m + d - 1) / (2 * d)) 1
      else roundToDouble false ((2 * m + d) / (2 * d)) 1
  | x => x

/-- The operation `ToNumber` of a value that is a Number or `undefined`. -/
def toNumber : Option JSNum → JSNum
  | some x => x
  | none => .nan

/-- The operation `ToString` of a value that is a Number or `undefined`. -/
def valueToString : Option JSNum → String
  | some x => numberToString x
  | none => "undefined"

/-! ## Platform: dates -/

/-- ECMA-262 `DayFromYear`: the day number of 1 January of year `y`. -/
def dayFromYear (y : Int) : Int :=
  365 * (y - 1970) + (y - 1969) / 4 - (y - 1901) / 100 + (y - 1601) / 400

/-- Leap years of the proleptic Gregorian calendar. -/
def isLeapYear (y : Int) : Bool :=
  (y % 4 = 0 ∧ y % 100 ≠ 0) ∨ y % 400 = 0

/-- Number of days in month `m` (1 to 12) of year `y`; `0` for no month. -/
def daysInMonth (y : Int) (m : Nat) : Nat :=
  match m with
  | 1 | 3 | 5 | 7 | 8 | 10 | 12 => 31
  | 4 | 6 | 9 | 11 => 30
  | 2 => if isLeapYear y then 29 else 28
  | _ => 0

/-- Days of year `y` that precede month `m`. -/
def daysBeforeMonth (y : Int) (m : Nat) : Nat :=
  ((List.range (m - 1)).map (fun i => daysInMonth y (i + 1))).sum

/-- ECMA-262 `MakeDay` for a calendar date: its day number since 1970-01-01. -/
def makeDay (y : Int) (m d : Nat) : Int :=
  dayFromYear y + (daysBeforeMonth y m : Nat) + (d : Nat) - 1

/-- Milliseconds in a day. -/
def msPerDay : Int := 86400000

/-- The fields of a string in the date-only form `YYYY-MM-DD` of the ECMA-262
date-time string format, when they name a day of the calendar. -/
def parseIsoDate (s : String) : Option (Int × Nat × Nat) :=
  match s.data with
  | [y1, y2, y3, y4, '-', m1, m2, '-', d1, d2] =>
    if [y1, y2, y3, y4, m1, m2, d1, d2].all Char.isDigit then
      let y : Int := (digitsToNat [y1, y2, y3, y4] : Nat)
      let m := digitsToNat [m1, m2]
      let d := digitsToNat [d1, d2]
      if 1 ≤ m ∧ m ≤ 12 ∧ 1 ≤ d ∧ d ≤ daysInMonth y m then some (y, m, d) else none
    else none
  | _ => none

/-- The time value of `new Date(v)` for `v` a date-only ISO string or
`undefined`: UTC midnight of the date in milliseconds since the epoch, `none`
for an Invalid Date.  The forecast service sends `daily.time` in the date-only
form; strings of any other shape are outside this embedding (they are given an
Invalid Date). -/
def newDate (v : Option String) : Option Int :=
  match v with
  | none => none
  | some s =>
    match parseIsoDate s with
    | some (y, m, d) => some (makeDay y m d * msPerDay)
    | none => none

/-- The method `Date.prototype.getDay`: the weekday (0 = Sunday) of the LOCAL
day the time value falls in.  `tzOffsetMin` is the browser's local offset from
UTC in minutes (east positive); `none` is `NaN`, for an Invalid Date. -/
def getDay (tzOffsetMin : Int) (t : Option Int) : Option Nat :=
  match t with
  | none => none
  | some t => some (((t + tzOffsetMin * 60000) / msPerDay + 4) % 7).toNat

/-! ## The page -/

/-- One child of the forecast container: the four values `updateForecast`
interpolates into the fixed card template. -/
structure ForecastItem where
  dayName : String
  iconClass : String
  high : String
  low : String
  deriving DecidableEq, Repr

/-- The elements of the page the script writes: the `style.display` of the
three panels, the text of the error banner, the text fields of the weather
card, the class of the current-conditions icon, and the children of the
forecast container. -/
structure DOM where
  loadingDisplay : String
  weatherCardDisplay : String
  errorMessageDisplay : String
  errorText : String
  locationName : String
  locationCoords : String
  temperature : String
  humidity : String
  windSpeed : String
  feelsLike : String
  precipitation : String
  weatherIcon : String
  forecastContainer : List ForecastItem
  deriving DecidableEq, Repr

/-- The method `showLoading`. -/
def showLoading (dom : DOM) : DOM :=
  { dom with loadingDisplay := "block", weatherCardDisplay := "none", errorMessageDisplay := "none" }

/-- The method `hideLoading`. -/
def hideLoading (dom : DOM) : DOM :=
  { dom with loadingDisplay := "none" }

/-- The method `showWeatherCard`. -/
def showWeatherCard (dom : DOM) : DOM :=
  { dom with loadingDisplay := "none", weatherCardDisplay := "block", errorMessageDisplay := "none" }

/-- The method `showError`. -/
def showError (dom : DOM) (message : String) : DOM :=
  { dom with loadingDisplay := "none", weatherCardDisplay := "none",
             errorMessageDisplay := "block", errorText := message }

/-! ## Weather icons -/

/-- The `iconMap` literal of `updateWeatherIcon`. -/
def iconMapCurrent : List (Int × String) :=
  [(0, "fas fa-sun"), (1, "fas fa-sun"), (2, "fas fa-cloud-sun"), (3, "fas fa-cloud"),
   (45, "fas fa-smog"), (48, "fas fa-smog"),
   (51, "fas fa-cloud-drizzle"), (53, "fas fa-cloud-drizzle"), (55, "fas fa-cloud-drizzle"),
   (56, "fas fa-cloud-drizzle"), (57, "fas fa-cloud-drizzle"),
   (61, "fas fa-cloud-rain"), (63, "fas fa-cloud-rain"), (65, "fas fa-cloud-rain"),
   (66, "fas fa-cloud-rain"), (67, "fas fa-cloud-rain"),
   (71, "fas fa-snowflake"), (73, "fas fa-snowflake"), (75, "fas fa-snowflake"),
   (77, "fas fa-snowflake"),
   (80, "fas fa-cloud-showers-heavy"), (81, "fas fa-cloud-showers-heavy"),
   (82, "fas fa-cloud-showers-heavy"),
   (85, "fas fa-snowflake"), (86, "fas fa-snowflake"),
   (95, "fas fa-bolt"), (96, "fas fa-bolt"), (99, "fas fa-bolt")]

/-- The `iconMap` literal of `getWeatherIconClass`. -/
def iconMapForecast : List (Int × String) :=
  [(0, "fas fa-sun"), (1, "fas fa-sun"), (2, "fas fa-cloud-sun"), (3, "fas fa-cloud"),
   (45, "fas fa-smog"), (48, "fas fa-smog"),
   (51, "fas fa-cloud-drizzle"), (53, "fas fa-cloud-drizzle"), (55, "fas fa-cloud-drizzle"),
   (56, "fas fa-cloud-drizzle"), (57, "fas fa-cloud-drizzle"),
   (61, "fas fa-cloud-rain"), (63, "fas fa-cloud-rain"), (65, "fas fa-cloud-rain"),
   (66, "fas fa-cloud-rain"), (67, "fas fa-cloud-rain"),
   (71, "fas fa-snowflake"), (73, "fas fa-snowflake"), (75, "fas fa-snowflake"),
   (77, "fas fa-snowflake"),
   (80, "fas fa-cloud-showers-heavy"), (81, "fas fa-cloud-showers-heavy"),
   (82, "fas fa-cloud-showers-heavy"),
   (85, "fas fa-snowflake"), (86, "fas fa-snowflake"),
   (95, "fas fa-bolt"), (96, "fas fa-bolt"), (99, "fas fa-bolt")]

/-- The expression `map[code] || fallback` for an object literal with integer keys and
non-empty string values; `code` is an integer or `undefined`, and `undefined`
is no key of the literal. -/
def lookupOr (map : List (Int × String)) (code : Option Int) (fallback : String) : String :=
  match code with
  | none => fallback
  | some c =>
    match map.lookup c with
    | some v => if v = "" then fallback else v
    | none => fallback

/-- The method `updateWeatherIcon`: sets the class of the current-conditions icon. -/
def updateWeatherIcon (dom : DOM) (weatherCode : Option Int) : DOM :=
  let iconClass := lookupOr iconMapCurrent weatherCode "fas fa-question"
  { dom with weatherIcon := iconClass }

/-- The method `getWeatherIconClass`. -/
def getWeatherIconClass (weatherCode : Option Int) : String :=
  lookupOr iconMapForecast weatherCode "fas fa-question"

/-! ## The two remote services -/

/-- One candidate of the geocoding response. -/
structure Candidate where
  lat : String
  lon : String
  display_name : String
  deriving DecidableEq, Repr

/-- The geocoding response: `response.ok` and the candidate array of its body. -/
structure GeoResponse where
  ok : Bool
  data : List Candidate
  deriving DecidableEq, Repr

/-- What `getCoordinates` returns. -/
structure Coordinates where
  lat : JSNum
  lon : JSNum
  displayName : String
  deriving DecidableEq, Repr

/-- The `current` record of the forecast payload; `none` is an absent field
(`undefined` when read). -/
structure Current where
  temperature_2m : Option JSNum
  relative_humidity_2m : Option JSNum
  apparent_temperature : Option JSNum
  precipitation : Option JSNum
  weather_code : Option Int
  wind_speed_10m : Option JSNum
  deriving DecidableEq, Repr

/-- The `daily` record of the forecast payload: parallel arrays; `none` is an
absent array. -/
structure Daily where
  time : Option (List String)
  weather_code : Option (List Int)
  temperature_2m_max : Option (List JSNum)
  temperature_2m_min : Option (List JSNum)
  deriving DecidableEq, Repr

/-- The forecast payload. -/
structure WeatherData where
  current : Option Current
  daily : Option Daily
  deriving DecidableEq, Repr

/-- The forecast response: `response.ok` and its parsed body. -/
structure WeatherResponse where
  ok : Bool
  body : WeatherData
  deriving DecidableEq, Repr

/-- A `fetch` the script issues: the geocoding search for a query (one
candidate asked for), or the 7-day forecast for a latitude and longitude. -/
inductive Request where
  | geocode (query : String)
  | forecast (lat lon : JSNum)
  deriving DecidableEq, Repr

/-- What can be thrown inside `handleSearch`: an `Error` the script raises
itself, the `TypeError` of reading a property of `undefined`, or the rejection
of a `fetch`. -/
inductive JSError where
  | error (message : String)
  | typeError
  | fetchRejected
  deriving DecidableEq, Repr

/-- The browser environment of one search: the answer of each service to each
request (`none`: the `fetch` rejects) and the local offset from UTC in
minutes. -/
structure Env where
  fetchGeocode : String → Option GeoResponse
  fetchForecast : JSNum → JSNum → Option WeatherResponse
  tzOffsetMin : Int

/-- The method `getCoordinates`: the fetches it issued and its result. -/
def getCoordinates (env : Env) (location : String) : List Request × Except JSError Coordinates :=
  ([Request.geocode location],
    match env.fetchGeocode location with
    | none => .error .fetchRejected
    | some response =>
      if !response.ok then .error (.error "Geocoding API request failed")
      else
        let data := response.data
        if data.length = 0 then .error (.error "Location not found")
        else
          match data[0]? with
          | none => .error .typeError
          | some first =>
            .ok { lat := parseFloat first.lat, lon := parseFloat first.lon,
                  displayName := first.display_name })

/-- The method `getWeatherData`: the fetches it issued and its result. -/
def getWeatherData (env : Env) (coordinates : Coordinates) :
    List Request × Except JSError WeatherData :=
  ([Request.forecast coordinates.lat coordinates.lon],
    match env.fetchForecast coordinates.lat coordinates.lon with
    | none => .error .fetchRejected
    | some response =>
      if !response.ok then .error (.error "Weather API request failed")
      else .ok response.body)

/-! ## Rendering -/

/-- The `days` array of `updateForecast`. -/
def days : List String := ["Sun", "Mon", "Tue", "Wed", "Thu", "Fri", "Sat"]

/-- The expression `i === 0 ? 'Today' : days[date.getDay()]`, as the template prints it. -/
def dayLabel (env : Env) (i : Nat) (date : Option Int) : String :=
  if i = 0 then "Today"
  else
    match getDay env.tzOffsetMin date with
    | none => "undefined"
    | some d => (days[d]?).getD "undefined"

/-- One iteration of the loop of `updateForecast`, up to `appendChild`: the
card for index `i`, or the `TypeError` of indexing an absent array. -/
def forecastItem (env : Env) (dailyData : Daily) (i : Nat) : Except JSError ForecastItem :=
  match dailyData.time with
  | none => .error .typeError
  | some time =>
    let date := newDate time[i]?
    let dayName := dayLabel env i date
    match dailyData.weather_code with
    | none => .error .typeError
    | some codes =>
      let iconClass := getWeatherIconClass codes[i]?
      match dailyData.temperature_2m_max with
      | none => .error .typeError
      | some tmax =>
        match dailyData.temperature_2m_min with
        | none => .error .typeError
        | some tmin =>
          .ok { dayName := dayName, iconClass := iconClass,
                high := numberToString (mathRound (toNumber tmax[i]?)) ++ "°",
                low := numberToString (mathRound (toNumber tmin[i]?)) ++ "°" }

/-- The loop of `updateForecast` over the indices still to do.  An error
carries the page as it stands when the exception leaves the loop. -/
def forecastLoop (env : Env) (dailyData : Option Daily) :
    List Nat → DOM → Except (DOM × JSError) DOM
  | [], dom => .ok dom
  | i :: rest, dom =>
    match dailyData with
    | none => .error (dom, .typeError)
    | some d =>
      match forecastItem env d i with
      | .error e => .error (dom, e)
      | .ok item =>
        forecastLoop env dailyData rest
          { dom with forecastContainer := dom.forecastContainer ++ [item] }

/-- The method `updateForecast`: empties the container, then appends a card for
`i = 0, ..., 6`. -/
def updateForecast (env : Env) (dom : DOM) (dailyData : Option Daily) :
    Except (DOM × JSError) DOM :=
  forecastLoop env dailyData (List.range 7) { dom with forecastContainer := [] }

/-- The method `displayWeatherData`.  An error carries the page as it stands when the
exception leaves the method. -/
def displayWeatherData (env : Env) (dom : DOM) (data : WeatherData)
    (coordinates : Coordinates) (searchLocation : String) : Except (DOM × JSError) DOM :=
  let dom := { dom with locationName := searchLocation }
  let dom := { dom with
    locationCoords := toFixed2 coordinates.lat ++ "°, " ++ toFixed2 coordinates.lon ++ "°" }
  match data.current with
  | none => .error (dom, .typeError)
  | some current =>
    let dom := { dom with temperature := numberToString (mathRound (toNumber current.temperature_2m)) }
    let dom := { dom with humidity := valueToString current.relative_humidity_2m ++ "%" }
    let dom := { dom with
      windSpeed := numberToString (mathRound (toNumber current.wind_speed_10m)) ++ " km/h" }
    let dom := { dom with
      feelsLike := numberToString (mathRound (toNumber current.apparent_temperature)) ++ "°C" }
    let dom := { dom with precipitation := valueToString current.precipitation ++ " mm" }
    let dom := updateWeatherIcon dom current.weather_code
    match updateForecast env dom data.daily with
    | .error e => .error e
    | .ok dom => .ok (showWeatherCard dom)

/-! ## The search -/

/-- The observable course of one `handleSearch` call: the page when the call
has finished, the fetches issued in order, the page as it stood at each
`await` of a fetch (what is on display while the request is in flight), and
what was passed to `console.error`. -/
structure Run where
  dom : DOM
  requests : List Request
  frames : List DOM
  console : List JSError
  deriving Repr

/-- The message of the `catch` block of `handleSearch`. -/
def genericMessage : String := "Unable to fetch weather data. Please try again."

/-- The method `handleSearch`, from the page `dom` with `inputValue` in the location
input. -/
def handleSearch (env : Env) (dom : DOM) (inputValue : String) : Run :=
  let location := jsTrim inputValue
  if location = "" then
    { dom := showError dom "Please enter a location", requests := [], frames := [], console := [] }
  else
    let dom := showLoading dom
    let (reqs1, r1) := getCoordinates env location
    match r1 with
    | .error e =>
      { dom := showError dom genericMessage, requests := reqs1, frames := [dom], console := [e] }
    | .ok coordinates =>
      let (reqs2, r2) := getWeatherData env coordinates
      match r2 with
      | .error e =>
        { dom := showError dom genericMessage, requests := reqs1 ++ reqs2,
          frames := [dom, dom], console := [e] }
      | .ok weatherData =>
        match displayWeatherData env dom weatherData coordinates location with
        | .error (dom', e) =>
          { dom := showError dom' genericMessage, requests := reqs1 ++ reqs2,
            frames := [dom, dom], console := [e] }
        | .ok dom' =>
          { dom := dom', requests := reqs1 ++ reqs2, frames := [dom, dom], console := [] }

/-! ## View states -/

/-- The Loading view: the loading indicator displayed, the other two panels
hidden. -/
def IsLoadingView (dom : DOM) : Prop :=
  dom.loadingDisplay = "block" ∧ dom.weatherCardDisplay = "none" ∧ dom.errorMessageDisplay = "none"

/-- The Result view: the weather card displayed, the other two panels hidden. -/
def IsResultView (dom : DOM) : Prop :=
  dom.loadingDisplay = "none" ∧ dom.weatherCardDisplay = "block" ∧ dom.errorMessageDisplay = "none"

/-- The Error view with a given text: the error banner displayed with that
text, the other two panels hidden. -/
def IsErrorView (dom : DOM) (message : String) : Prop :=
  dom.loadingDisplay = "none" ∧ dom.weatherCardDisplay = "none" ∧
    dom.errorMessageDisplay = "block" ∧ dom.errorText = message

instance (dom : DOM) : Decidable (IsLoadingView dom) := by
  unfold IsLoadingView; infer_instance

instance (dom : DOM) : Decidable (IsResultView dom) := by
  unfold IsResultView; infer_instance

instance (dom : DOM) (message : String) : Decidable (IsErrorView dom message) := by
  unfold IsErrorView; infer_instance


/-! ## The icon table as the specification words it -/

/-- The fixed table of the specification: the semantic icon name of an integer
weather code together with the font class that stands for it. -/
def specIcon (c : Int) : String × String :=
  if c = 0 ∨ c = 1 then ("clear", "fas fa-sun")
  else if c = 2 then ("partly-cloudy", "fas fa-cloud-sun")
  else if c = 3 then ("overcast", "fas fa-cloud")
  else if c = 45 ∨ c = 48 then ("fog", "fas fa-smog")
  else if c = 51 ∨ c = 53 ∨ c = 55 ∨ c = 56 ∨ c = 57 then ("drizzle", "fas fa-cloud-drizzle")
  else if c = 61 ∨ c = 63 ∨ c = 65 ∨ c = 66 ∨ c = 67 then ("rain", "fas fa-cloud-rain")
  else if c = 71 ∨ c = 73 ∨ c = 75 ∨ c = 77 then ("snow", "fas fa-snowflake")
  else if c = 80 ∨ c = 81 ∨ c = 82 then ("rain-showers", "fas fa-cloud-showers-heavy")
  else if c = 85 ∨ c = 86 then ("snow-showers", "fas fa-snowflake")
  else if c = 95 ∨ c = 96 ∨ c = 99 then ("thunderstorm", "fas fa-bolt")
  else ("unknown", "fas fa-question")

/-! ## Auxiliary notions used in the statements -/

/-- A call of one of the three methods through which `handleSearch` (directly,
or through `displayWeatherData`) changes which panel is on display. -/
inductive ViewCall where
  | loading
  | weatherCard
  | error (message : String)
  deriving DecidableEq, Repr

/-- The effect of a view call on the page. -/
def ViewCall.run (dom : DOM) : ViewCall → DOM
  | .loading => showLoading dom
  | .weatherCard => showWeatherCard dom
  | .error message => showError dom message

/-- Exactly one of the loading indicator, the weather card and the error
banner is displayed (`block`), the other two are hidden (`none`). -/
def ExactlyOneShown (dom : DOM) : Prop :=
  (dom.loadingDisplay = "block" ∧ dom.weatherCardDisplay = "none" ∧
      dom.errorMessageDisplay = "none") ∨
  (dom.loadingDisplay = "none" ∧ dom.weatherCardDisplay = "block" ∧
      dom.errorMessageDisplay = "none") ∨
  (dom.loadingDisplay = "none" ∧ dom.weatherCardDisplay = "none" ∧
      dom.errorMessageDisplay = "block")

/-- The card `updateForecast` builds for index `i` from the four daily arrays. -/
def card (env : Env) (time : List String) (codes : List Int) (tmax tmin : List JSNum)
    (i : Nat) : ForecastItem :=
  { dayName := dayLabel env i (newDate time[i]?),
    iconClass := getWeatherIconClass codes[i]?,
    high := numberToString (mathRound (toNumber tmax[i]?)) ++ "°",
    low := numberToString (mathRound (toNumber tmin[i]?)) ++ "°" }

/-- The page after `displayWeatherData` has written the location name, the
coordinates, the current conditions and the icon, before `updateForecast`. -/
def renderCurrent (dom : DOM) (current : Current) (coordinates : Coordinates)
    (searchLocation : String) : DOM :=
  { dom with
    locationName := searchLocation,
    locationCoords := toFixed2 coordinates.lat ++ "°, " ++ toFixed2 coordinates.lon ++ "°",
    temperature := numberToString (mathRound (toNumber current.temperature_2m)),
    humidity := valueToString current.relative_humidity_2m ++ "%",
    windSpeed := numberToString (mathRound (toNumber current.wind_speed_10m)) ++ " km/h",
    feelsLike := numberToString (mathRound (toNumber current.apparent_temperature)) ++ "°C",
    precipitation := valueToString current.precipitation ++ " mm",
    weatherIcon := lookupOr iconMapCurrent current.weather_code "fas fa-question" }

/-- The page a method call leaves behind, whether it returned or threw. -/
def pageAfter : Except (DOM × JSError) DOM → DOM
  | .ok dom => dom
  | .error (dom, _) => dom

/-- All four daily arrays are present. -/
def Daily.Complete (d : Daily) : Prop :=
  d.time ≠ none ∧ d.weather_code ≠ none ∧ d.temperature_2m_max ≠ none ∧
    d.temperature_2m_min ≠ none

/-! ## Sample data -/

/-- A page on which nothing has been set yet. -/
def blankPage : DOM :=
  { loadingDisplay := "", weatherCardDisplay := "", errorMessageDisplay := "", errorText := "",
    locationName := "", locationCoords := "", temperature := "", humidity := "",
    windSpeed := "", feelsLike := "", precipitation := "", weatherIcon := "",
    forecastContainer := [] }

/-- The geocoding candidate of the Paris scenario. -/
def parisCandidate : Candidate :=
  { lat := "48.8566", lon := "2.3522", display_name := "Paris, France" }

/-- A second candidate, elsewhere. -/
def otherCandidate : Candidate :=
  { lat := "33.6609", lon := "-95.5555", display_name := "Paris, Texas" }

/-- A complete forecast payload: a week from Sunday 14 January 2024. -/
def samplePayload : WeatherData :=
  { current := some
      { temperature_2m := some (parseFloat "5.4"),
        relative_humidity_2m := some (parseFloat "81"),
        apparent_temperature := some (parseFloat "2.6"),
        precipitation := some (parseFloat "0.1"),
        weather_code := some 61,
        wind_speed_10m := some (parseFloat "12.5") },
    daily := some
      { time := some ["2024-01-14", "2024-01-15", "2024-01-16", "2024-01-17", "2024-01-18",
                      "2024-01-19", "2024-01-20"],
        weather_code := some [61, 3, 0, 2, 71, 95, 45],
        temperature_2m_max := some (["6.5", "7.1", "4.0", "3.2", "1.5", "2.8", "5.0"].map parseFloat),
        temperature_2m_min := some (["1.2", "0.4", "-1.6", "-2.5", "-3.0", "-0.5", "0.9"].map parseFloat) } }

/-- A payload whose daily arrays hold three entries only. -/
def shortPayload : WeatherData :=
  { current := samplePayload.current,
    daily := some
      { time := some ["2024-01-14", "2024-01-15", "2024-01-16"],
        weather_code := some [61, 3, 0],
        temperature_2m_max := some (["6.5", "7.1", "4.0"].map parseFloat),
        temperature_2m_min := some (["1.2", "0.4", "-1.6"].map parseFloat) } }

/-- A browser one hour east of UTC: geocoding knows Paris only, and the
forecast service answers every coordinate pair with `samplePayload`. -/
def parisEnv : Env :=
  { fetchGeocode := fun q =>
      if q = "Paris" then some { ok := true, data := [parisCandidate, otherCandidate] }
      else some { ok := true, data := [] },
    fetchForecast := fun _ _ => some { ok := true, body := samplePayload },
    tzOffsetMin := 60 }

/-- The same browser with a forecast service that answers with `shortPayload`. -/
def shortEnv : Env :=
  { parisEnv with fetchForecast := fun _ _ => some { ok := true, body := shortPayload } }

/-- The same browser five hours west of UTC. -/
def westEnv : Env :=
  { parisEnv with tzOffsetMin := -300 }

/-- A well-formed forecast payload: a current record, and the four daily
sequences with 7 entries each. -/
def WellFormed (data : WeatherData) : Prop :=
  ∃ cur t c a b, data.current = some cur ∧ data.daily = some ⟨some t, some c, some a, some b⟩ ∧
    t.length = 7 ∧ c.length = 7 ∧ a.length = 7 ∧ b.length = 7

/-- The weekday (0 = Sunday) of a day of the Gregorian calendar, by the
month-offset rule, independently of any time value. -/
def calendarWeekday (y : Int) (m d : Nat) : Nat :=
  let y' : Int := if m < 3 then y - 1 else y
  let off : Int := ([0, 3, 2, 5, 0, 3, 5, 1, 4, 6, 2, 4][m - 1]?).getD 0
  ((y' + y' / 4 - y' / 100 + y' / 400 + off + (d : Nat)) % 7).toNat

/-- The three-letter weekday name of the calendar date an ISO date string
writes; `none` when the string writes no date. -/
def weekdayName (isoDate : String) : Option String :=
  match parseIsoDate isoDate with
  | some (y, m, d) => days[calendarWeekday y m d]?
  | none => none

/-- Two geocoding answers that differ at most in the display names of their
candidates. -/
def SameUpToDisplayName (x y : Option GeoResponse) : Prop :=
  x.map (fun r => (r.ok, r.data.map (fun c => (c.lat, c.lon)))) =
    y.map (fun r => (r.ok, r.data.map (fun c => (c.lat, c.lon))))

/-- The same browser with a forecast service whose payload has no daily
record. -/
def noDailyEnv : Env :=
  { parisEnv with
    fetchForecast := fun _ _ =>
      some { ok := true, body := { current := samplePayload.current, daily := none } } }

/-- The page an earlier, successful search for Paris has left. -/
def earlierPage : DOM :=
  (handleSearch parisEnv blankPage "Paris").dom

/-- A payload with no current record, for a later week. -/
def noCurrentPayload : WeatherData :=
  { current := none,
    daily := some
      { time := some ["2024-02-04", "2024-02-05", "2024-02-06", "2024-02-07", "2024-02-08",
                      "2024-02-09", "2024-02-10"],
        weather_code := some [0, 0, 1, 2, 3, 80, 0],
        temperature_2m_max := some (["11.2", "12.0", "9.5", "8.1", "10.3", "7.7", "9.0"].map parseFloat),
        temperature_2m_min := some (["3.1", "4.4", "2.0", "1.1", "2.9", "0.8", "1.6"].map parseFloat) } }

/-- Coordinates of a second place. -/
def lyonCoordinates : Coordinates :=
  { lat := parseFloat "45.7578", lon := parseFloat "4.8320", displayName := "Lyon, France" }

/-- The cards `updateForecast` would build from the daily record of a payload,
when its four arrays are present. -/
def cardsOf (env : Env) (data : WeatherData) : Option (List ForecastItem) :=
  match data.daily with
  | some ⟨some t, some cs, some a, some b⟩ => some ((List.range 7).map (card env t cs a b))
  | _ => none

/-! ## Theorems -/

theorem specIcon_outside (c : Int) (h : c < 0 ∨ 99 < c) :
    specIcon c = ("unknown", "fas fa-question") := by
  unfold specIcon
  repeat' split
  all_goals first | rfl | omega

theorem lookupOr_current_outside (c : Int) (h : c < 0 ∨ 99 < c) :
    lookupOr iconMapCurrent (some c) "fas fa-question" = "fas fa-question" := by
  have hn : iconMapCurrent.lookup c = none := by
    rw [List.lookup_eq_none_iff]
    intro p hp
    simp only [iconMapCurrent, List.mem_cons, List.mem_singleton, List.not_mem_nil, or_false] at hp
    have hk : 0 ≤ p.1 ∧ p.1 ≤ 99 := by
      rcases hp with h | h | h | h | h | h | h | h | h | h | h | h | h | h | h | h | h | h | h | h |
        h | h | h | h | h | h | h | h <;> subst h <;> decide
    have hne : c ≠ p.1 := by omega
    simpa using hne
  simp [lookupOr, hn]

theorem lookupOr_forecast_outside (c : Int) (h : c < 0 ∨ 99 < c) :
    lookupOr iconMapForecast (some c) "fas fa-question" = "fas fa-question" := by
  have hn : iconMapForecast.lookup c = none := by
    rw [List.lookup_eq_none_iff]
    intro p hp
    simp only [iconMapForecast, List.mem_cons, List.mem_singleton, List.not_mem_nil, or_false] at hp
    have hk : 0 ≤ p.1 ∧ p.1 ≤ 99 := by
      rcases hp with h | h | h | h | h | h | h | h | h | h | h | h | h | h | h | h | h | h | h | h |
        h | h | h | h | h | h | h | h <;> subst h <;> decide
    have hne : c ≠ p.1 := by omega
    simpa using hne
  simp [lookupOr, hn]

/-- C5: for every integer weather code the class `updateWeatherIcon` sets on
the current-conditions icon and the class `getWeatherIconClass` returns for a
forecast day are the same, and are the class of the code's entry in the fixed
table of the specification, the unknown icon `fas fa-question` for every
integer outside the table (negative codes and 200 among them). -/
theorem icon_lookup_matches_table (dom : DOM) (c : Int) :
    (updateWeatherIcon dom (some c)).weatherIcon = getWeatherIconClass (some c) ∧
    getWeatherIconClass (some c) = (specIcon c).2 ∧
    getWeatherIconClass (some 200) = "fas fa-question" ∧
    getWeatherIconClass (some (-1)) = "fas fa-question" := by
  refine ⟨?_, ?_, by decide, by decide⟩
  · by_cases h : c < 0 ∨ 99 < c
    · simp only [updateWeatherIcon, getWeatherIconClass,
        lookupOr_current_outside c h, lookupOr_forecast_outside c h]
    · have h0 : 0 ≤ c := by omega
      have h1 : c ≤ 99 := by omega
      simp only [updateWeatherIcon, getWeatherIconClass]
      interval_cases c <;> decide
  · by_cases h : c < 0 ∨ 99 < c
    · simp only [getWeatherIconClass, lookupOr_forecast_outside c h, specIcon_outside c h]
    · have h0 : 0 ≤ c := by omega
      have h1 : c ≤ 99 := by omega
      interval_cases c <;> decide



/-! ### Trimming -/

theorem jsTrim_eq_empty_of_blank (s : String) (h : ∀ c ∈ s.data, isJSWhiteSpace c = true) :
    jsTrim s = "" := by
  have h1 : trimStart s.data = [] := by
    unfold trimStart
    rw [List.dropWhile_eq_nil_iff]
    exact h
  unfold jsTrim
  rw [h1]
  rfl

/-! ### The three view methods -/

theorem exactlyOne_showLoading (dom : DOM) : ExactlyOneShown (showLoading dom) :=
  Or.inl ⟨rfl, rfl, rfl⟩

theorem exactlyOne_showWeatherCard (dom : DOM) : ExactlyOneShown (showWeatherCard dom) :=
  Or.inr (Or.inl ⟨rfl, rfl, rfl⟩)

theorem exactlyOne_showError (dom : DOM) (message : String) :
    ExactlyOneShown (showError dom message) :=
  Or.inr (Or.inr ⟨rfl, rfl, rfl⟩)

theorem exactlyOne_run (dom : DOM) (call : ViewCall) : ExactlyOneShown (call.run dom) := by
  cases call
  · exact exactlyOne_showLoading dom
  · exact exactlyOne_showWeatherCard dom
  · exact exactlyOne_showError dom _

theorem isErrorView_showError (dom : DOM) (message : String) :
    IsErrorView (showError dom message) message :=
  ⟨rfl, rfl, rfl, rfl⟩

theorem not_result_of_error {dom : DOM} {message : String} (h : IsErrorView dom message) :
    ¬ IsResultView dom := by
  intro hr
  have h1 := h.2.1
  have h2 := hr.2.1
  rw [h1] at h2
  exact absurd h2 (by decide)

theorem not_loading_of_error {dom : DOM} {message : String} (h : IsErrorView dom message) :
    ¬ IsLoadingView dom := by
  intro hl
  have h1 := h.1
  have h2 := hl.1
  rw [h1] at h2
  exact absurd h2 (by decide)

/-! ### Rendering in closed form -/

theorem forecastItem_complete (env : Env) (t : List String) (c : List Int) (a b : List JSNum)
    (i : Nat) :
    forecastItem env ⟨some t, some c, some a, some b⟩ i = .ok (card env t c a b i) :=
  rfl

theorem forecastItem_incomplete (env : Env) (d : Daily) (i : Nat) (h : ¬ d.Complete) :
    forecastItem env d i = .error .typeError := by
  rcases d with ⟨_ | t, _ | c, _ | a, _ | b⟩ <;> first | rfl | (exact absurd (by simp [Daily.Complete]) h)

theorem forecastLoop_complete (env : Env) (t : List String) (c : List Int) (a b : List JSNum) :
    ∀ (idxs : List Nat) (dom : DOM),
      forecastLoop env (some ⟨some t, some c, some a, some b⟩) idxs dom =
        .ok { dom with forecastContainer := dom.forecastContainer ++ idxs.map (card env t c a b) }
  | [], dom => by simp [forecastLoop]
  | i :: rest, dom => by
    simp only [forecastLoop, forecastItem_complete]
    rw [forecastLoop_complete env t c a b rest]
    simp

theorem updateForecast_complete (env : Env) (dom : DOM) (t : List String) (c : List Int)
    (a b : List JSNum) :
    updateForecast env dom (some ⟨some t, some c, some a, some b⟩) =
      .ok { dom with forecastContainer := (List.range 7).map (card env t c a b) } := by
  unfold updateForecast
  rw [forecastLoop_complete]
  simp

theorem range_seven : List.range 7 = [0, 1, 2, 3, 4, 5, 6] := by decide

theorem updateForecast_absent (env : Env) (dom : DOM) :
    updateForecast env dom none = .error ({ dom with forecastContainer := [] }, .typeError) := by
  unfold updateForecast
  rw [range_seven]
  rfl

theorem updateForecast_incomplete (env : Env) (dom : DOM) (d : Daily) (h : ¬ d.Complete) :
    updateForecast env dom (some d) =
      .error ({ dom with forecastContainer := [] }, .typeError) := by
  unfold updateForecast
  rw [range_seven]
  simp only [forecastLoop, forecastItem_incomplete env d 0 h]

theorem displayWeatherData_noCurrent (env : Env) (dom : DOM) (data : WeatherData)
    (co : Coordinates) (q : String) (h : data.current = none) :
    displayWeatherData env dom data co q =
      .error ({ dom with
        locationName := q,
        locationCoords := toFixed2 co.lat ++ "°, " ++ toFixed2 co.lon ++ "°" }, .typeError) := by
  unfold displayWeatherData
  simp only [h]

theorem displayWeatherData_current (env : Env) (dom : DOM) (data : WeatherData)
    (co : Coordinates) (q : String) (cur : Current) (h : data.current = some cur) :
    displayWeatherData env dom data co q =
      match updateForecast env (renderCurrent dom cur co q) data.daily with
      | .error e => .error e
      | .ok dom => .ok (showWeatherCard dom) := by
  unfold displayWeatherData
  simp only [h]
  rfl

theorem displayWeatherData_complete (env : Env) (dom : DOM) (data : WeatherData)
    (co : Coordinates) (q : String) (cur : Current) (t : List String) (c : List Int)
    (a b : List JSNum) (h : data.current = some cur)
    (hd : data.daily = some ⟨some t, some c, some a, some b⟩) :
    displayWeatherData env dom data co q =
      .ok (showWeatherCard { renderCurrent dom cur co q with
        forecastContainer := (List.range 7).map (card env t c a b) }) := by
  rw [displayWeatherData_current env dom data co q cur h, hd, updateForecast_complete]

theorem displayWeatherData_noDaily (env : Env) (dom : DOM) (data : WeatherData)
    (co : Coordinates) (q : String) (cur : Current) (h : data.current = some cur)
    (hd : data.daily = none ∨ ∃ d, data.daily = some d ∧ ¬ d.Complete) :
    displayWeatherData env dom data co q =
      .error ({ renderCurrent dom cur co q with forecastContainer := [] }, .typeError) := by
  rw [displayWeatherData_current env dom data co q cur h]
  rcases hd with hd | ⟨d, hd, hc⟩
  · rw [hd, updateForecast_absent]
  · rw [hd, updateForecast_incomplete env _ d hc]

theorem daily_complete_cases (d : Daily) :
    (∃ t c a b, d = ⟨some t, some c, some a, some b⟩) ∨ ¬ d.Complete := by
  rcases d with ⟨_ | t, _ | c, _ | a, _ | b⟩ <;>
    first
      | exact Or.inl ⟨_, _, _, _, rfl⟩
      | (right; simp [Daily.Complete])

/-- Every outcome of `displayWeatherData`: it returns a page in the Result
view, or it throws a `TypeError` and leaves the panels as they were. -/
theorem displayWeatherData_outcome (env : Env) (dom : DOM) (data : WeatherData)
    (co : Coordinates) (q : String) :
    (∃ d, displayWeatherData env dom data co q = .ok d ∧ IsResultView d ∧ d.locationName = q ∧
        d.locationCoords = toFixed2 co.lat ++ "°, " ++ toFixed2 co.lon ++ "°" ∧
        d.forecastContainer.length = 7) ∨
    (∃ d, displayWeatherData env dom data co q = .error (d, .typeError)) := by
  cases hc : data.current with
  | none => exact Or.inr ⟨_, displayWeatherData_noCurrent env dom data co q hc⟩
  | some cur =>
    cases hd : data.daily with
    | none => exact Or.inr ⟨_, displayWeatherData_noDaily env dom data co q cur hc (Or.inl hd)⟩
    | some d =>
      rcases daily_complete_cases d with ⟨t, c, a, b, rfl⟩ | hn
      · refine Or.inl ⟨_, displayWeatherData_complete env dom data co q cur t c a b hc hd,
          ⟨rfl, rfl, rfl⟩, rfl, rfl, ?_⟩
        simp [showWeatherCard]
      · exact Or.inr ⟨_, displayWeatherData_noDaily env dom data co q cur hc
          (Or.inr ⟨d, hd, hn⟩)⟩


/-! ### The search in closed form -/

theorem handleSearch_blank (env : Env) (dom : DOM) (input : String) (h : jsTrim input = "") :
    handleSearch env dom input =
      { dom := showError dom "Please enter a location", requests := [], frames := [],
        console := [] } := by
  unfold handleSearch
  simp only [h, if_true]

theorem handleSearch_geocodeFailed (env : Env) (dom : DOM) (input : String) (e : JSError)
    (h : jsTrim input ≠ "") (hg : (getCoordinates env (jsTrim input)).2 = .error e) :
    handleSearch env dom input =
      { dom := showError (showLoading dom) genericMessage,
        requests := [Request.geocode (jsTrim input)],
        frames := [showLoading dom], console := [e] } := by
  unfold handleSearch
  simp only [h, if_false]
  have h1 : (getCoordinates env (jsTrim input)).1 = [Request.geocode (jsTrim input)] := rfl
  rw [← h1]
  generalize getCoordinates env (jsTrim input) = r at hg
  obtain ⟨reqs, res⟩ := r
  simp only at hg
  subst hg
  rfl

theorem handleSearch_geocoded (env : Env) (dom : DOM) (input : String) (co : Coordinates)
    (h : jsTrim input ≠ "") (hg : (getCoordinates env (jsTrim input)).2 = .ok co) :
    handleSearch env dom input =
      match (getWeatherData env co).2 with
      | .error e =>
        { dom := showError (showLoading dom) genericMessage,
          requests := [Request.geocode (jsTrim input), Request.forecast co.lat co.lon],
          frames := [showLoading dom, showLoading dom], console := [e] }
      | .ok weatherData =>
        match displayWeatherData env (showLoading dom) weatherData co (jsTrim input) with
        | .error (dom', e) =>
          { dom := showError dom' genericMessage,
            requests := [Request.geocode (jsTrim input), Request.forecast co.lat co.lon],
            frames := [showLoading dom, showLoading dom], console := [e] }
        | .ok dom' =>
          { dom := dom',
            requests := [Request.geocode (jsTrim input), Request.forecast co.lat co.lon],
            frames := [showLoading dom, showLoading dom], console := [] } := by
  unfold handleSearch
  simp only [h, if_false]
  have h1 : (getCoordinates env (jsTrim input)).1 = [Request.geocode (jsTrim input)] := rfl
  have h2 : (getWeatherData env co).1 = [Request.forecast co.lat co.lon] := rfl
  rw [hg]
  simp only [h1, h2]
  cases (getWeatherData env co).2 with
  | error e => rfl
  | ok data =>
    simp only
    cases displayWeatherData env (showLoading dom) data co (jsTrim input) with
    | error p => rfl
    | ok d => rfl

theorem getCoordinates_result (env : Env) (q : String) :
    (getCoordinates env q).2 =
      match env.fetchGeocode q with
      | none => .error .fetchRejected
      | some r =>
        if r.ok = false then .error (.error "Geocoding API request failed")
        else
          match r.data with
          | [] => .error (.error "Location not found")
          | c :: _ => .ok { lat := parseFloat c.lat, lon := parseFloat c.lon,
                            displayName := c.display_name } := by
  unfold getCoordinates
  cases env.fetchGeocode q with
  | none => rfl
  | some r =>
    rcases r with ⟨ok, data⟩
    cases ok <;> cases data <;> simp

theorem getWeatherData_result (env : Env) (co : Coordinates) :
    (getWeatherData env co).2 =
      match env.fetchForecast co.lat co.lon with
      | none => .error .fetchRejected
      | some r =>
        if r.ok = false then .error (.error "Weather API request failed") else .ok r.body := by
  unfold getWeatherData
  cases env.fetchForecast co.lat co.lon with
  | none => rfl
  | some r =>
    rcases r with ⟨ok, body⟩
    cases ok <;> simp


/-! ### Claims about the search and its failures -/

/-- C1: for every query that is non-empty after trimming, a failure of
geocoding (the fetch rejects, the response is not ok, or it holds zero
candidates) ends the search in the Error view with the fixed generic text and
with the geocoding request as the only request issued, so no forecast request;
a failure of the forecast request (it rejects or the response is not ok) ends
it in the same Error view; and whatever error is caught and logged, the text
shown is that same generic text. -/
theorem search_failure_shows_generic_message (env : Env) (dom : DOM) (input : String)
    (hq : jsTrim input ≠ "") :
    ((env.fetchGeocode (jsTrim input) = none ∨
        ∃ r, env.fetchGeocode (jsTrim input) = some r ∧ (r.ok = false ∨ r.data = [])) →
      IsErrorView (handleSearch env dom input).dom
          "Unable to fetch weather data. Please try again." ∧
        (handleSearch env dom input).requests = [Request.geocode (jsTrim input)]) ∧
    (∀ r c rest, env.fetchGeocode (jsTrim input) = some r → r.ok = true → r.data = c :: rest →
      (env.fetchForecast (parseFloat c.lat) (parseFloat c.lon) = none ∨
        ∃ w, env.fetchForecast (parseFloat c.lat) (parseFloat c.lon) = some w ∧ w.ok = false) →
      IsErrorView (handleSearch env dom input).dom
          "Unable to fetch weather data. Please try again." ∧
        (handleSearch env dom input).requests =
          [Request.geocode (jsTrim input),
           Request.forecast (parseFloat c.lat) (parseFloat c.lon)]) ∧
    ((handleSearch env dom input).console ≠ [] →
      IsErrorView (handleSearch env dom input).dom
          "Unable to fetch weather data. Please try again.") := by
  refine ⟨?_, ?_, ?_⟩
  · intro hfail
    have hg : ∃ e, (getCoordinates env (jsTrim input)).2 = .error e := by
      rw [getCoordinates_result]
      rcases hfail with h | ⟨r, h, hr⟩
      · rw [h]; exact ⟨_, rfl⟩
      · rw [h]
        rcases r with ⟨ok, data⟩
        cases ok
        · exact ⟨_, rfl⟩
        · rcases hr with hr | hr
          · exact absurd hr (by simp)
          · simp only at hr
            subst hr
            exact ⟨_, rfl⟩
    obtain ⟨e, he⟩ := hg
    rw [handleSearch_geocodeFailed env dom input e hq he]
    exact ⟨isErrorView_showError _ _, rfl⟩
  · intro r c rest hg hok hd hfail
    have hco : (getCoordinates env (jsTrim input)).2 =
        .ok { lat := parseFloat c.lat, lon := parseFloat c.lon, displayName := c.display_name } := by
      rw [getCoordinates_result, hg]
      simp [hok, hd]
    rw [handleSearch_geocoded env dom input _ hq hco]
    have hw : ∃ e, (getWeatherData env
        { lat := parseFloat c.lat, lon := parseFloat c.lon, displayName := c.display_name }).2 =
        .error e := by
      rw [getWeatherData_result]
      rcases hfail with h | ⟨w, h, hwok⟩
      · simp only [h]; exact ⟨_, rfl⟩
      · simp only [h, hwok, if_true]; exact ⟨_, rfl⟩
    obtain ⟨e, he⟩ := hw
    rw [he]
    exact ⟨isErrorView_showError _ _, rfl⟩
  · intro hc
    cases hres : (getCoordinates env (jsTrim input)).2 with
    | error e =>
      rw [handleSearch_geocodeFailed env dom input e hq hres]
      exact isErrorView_showError _ _
    | ok co =>
      rw [handleSearch_geocoded env dom input co hq hres] at hc ⊢
      cases hw : (getWeatherData env co).2 with
      | error e => exact isErrorView_showError _ _
      | ok data =>
        rw [hw] at hc
        simp only at hc ⊢
        cases hdisp : displayWeatherData env (showLoading dom) data co (jsTrim input) with
        | error p => exact isErrorView_showError _ _
        | ok d =>
          rw [hdisp] at hc
          exact absurd rfl hc

/-- Witness of C1: the query `zzxqnotaplace`, for which geocoding returns an
empty candidate list. -/
theorem search_failure_shows_generic_message_witness :
    IsErrorView (handleSearch parisEnv blankPage "zzxqnotaplace").dom
        "Unable to fetch weather data. Please try again." ∧
      (handleSearch parisEnv blankPage "zzxqnotaplace").requests =
        [Request.geocode (jsTrim "zzxqnotaplace")] :=
  (search_failure_shows_generic_message parisEnv blankPage "zzxqnotaplace" (by decide)).1
    (Or.inr ⟨{ ok := true, data := [] }, by decide, Or.inr rfl⟩)

/-- C2: for every input that is empty or holds only white space (the code
points `trim` strips), `handleSearch` ends in the Error view with the text
`Please enter a location`, issues no request at all, never has the page on
display while a request is in flight, and does not end in the Loading view. -/
theorem blank_query_rejected (env : Env) (dom : DOM) (input : String)
    (h : ∀ c ∈ input.data, isJSWhiteSpace c = true) :
    IsErrorView (handleSearch env dom input).dom "Please enter a location" ∧
    (handleSearch env dom input).requests = [] ∧
    (handleSearch env dom input).frames = [] ∧
    ¬ IsLoadingView (handleSearch env dom input).dom := by
  rw [handleSearch_blank env dom input (jsTrim_eq_empty_of_blank input h)]
  exact ⟨isErrorView_showError _ _, rfl, rfl, not_loading_of_error (isErrorView_showError _ _)⟩

/-- Witness of C2: an input of blanks, a tab and a line feed. -/
theorem blank_query_rejected_witness :
    (∀ c ∈ "  \t\n ".data, isJSWhiteSpace c = true) ∧
    IsErrorView (handleSearch parisEnv blankPage "  \t\n ").dom "Please enter a location" ∧
    (handleSearch parisEnv blankPage "  \t\n ").requests = [] ∧
    (handleSearch parisEnv blankPage "  \t\n ").frames = [] ∧
    ¬ IsLoadingView (handleSearch parisEnv blankPage "  \t\n ").dom :=
  ⟨by decide, blank_query_rejected parisEnv blankPage "  \t\n " (by decide)⟩

/-- C3: when the geocoding response is not ok `getCoordinates` fails; when it
is ok with zero candidates it fails with `Location not found`; when it is ok
with at least one candidate it returns the first candidate's display name and
the `parseFloat` of its `lat` and `lon` strings, whatever candidates follow. -/
theorem getCoordinates_first_candidate (env : Env) (q : String) (r : GeoResponse)
    (h : env.fetchGeocode q = some r) :
    (r.ok = false →
      (getCoordinates env q).2 = .error (.error "Geocoding API request failed")) ∧
    (r.ok = true → r.data = [] →
      (getCoordinates env q).2 = .error (.error "Location not found")) ∧
    (∀ c rest, r.ok = true → r.data = c :: rest →
      (getCoordinates env q).2 =
        .ok { lat := parseFloat c.lat, lon := parseFloat c.lon,
              displayName := c.display_name }) := by
  rw [getCoordinates_result, h]
  refine ⟨?_, ?_, ?_⟩
  · intro hok
    simp [hok]
  · intro hok hd
    simp [hok, hd]
  · intro c rest hok hd
    simp [hok, hd]

/-- Witness of C3: the query `Paris`, answered with two candidates. -/
theorem getCoordinates_first_candidate_witness :
    (getCoordinates parisEnv "Paris").2 =
      .ok { lat := parseFloat "48.8566", lon := parseFloat "2.3522",
            displayName := "Paris, France" } :=
  (getCoordinates_first_candidate parisEnv "Paris"
    { ok := true, data := [parisCandidate, otherCandidate] } rfl).2.2
    parisCandidate [otherCandidate] rfl rfl

/-- C8: after any non-empty sequence of `showLoading`, `showWeatherCard` and
`showError` calls, from any page, exactly one of the three panels is displayed
and the other two are hidden; and so it is in every page a `handleSearch` call
has on display while a request is in flight and in the page it ends with. -/
theorem exactly_one_panel_shown :
    (∀ (dom : DOM) (calls : List ViewCall), calls ≠ [] →
      ExactlyOneShown (calls.foldl ViewCall.run dom)) ∧
    (∀ (env : Env) (dom : DOM) (input : String),
      ∀ d ∈ (handleSearch env dom input).frames ++ [(handleSearch env dom input).dom],
        ExactlyOneShown d) := by
  constructor
  · intro dom calls hne
    obtain ⟨front, last, rfl⟩ : ∃ front last, calls = front ++ [last] :=
      ⟨calls.dropLast, calls.getLast hne, (List.dropLast_append_getLast hne).symm⟩
    rw [List.foldl_append]
    exact exactlyOne_run _ last
  · intro env dom input d hd
    by_cases hq : jsTrim input = ""
    · rw [handleSearch_blank env dom input hq] at hd
      simp only [List.nil_append, List.mem_singleton] at hd
      subst hd
      exact exactlyOne_showError _ _
    · cases hres : (getCoordinates env (jsTrim input)).2 with
      | error e =>
        rw [handleSearch_geocodeFailed env dom input e hq hres] at hd
        simp only [List.singleton_append, List.mem_cons, List.mem_singleton, List.not_mem_nil,
          or_false] at hd
        rcases hd with rfl | rfl
        · exact exactlyOne_showLoading _
        · exact exactlyOne_showError _ _
      | ok co =>
        rw [handleSearch_geocoded env dom input co hq hres] at hd
        cases hw : (getWeatherData env co).2 with
        | error e =>
          rw [hw] at hd
          simp only [List.cons_append, List.nil_append, List.mem_cons, List.mem_singleton,
            List.not_mem_nil, or_false] at hd
          rcases hd with rfl | rfl | rfl
          · exact exactlyOne_showLoading _
          · exact exactlyOne_showLoading _
          · exact exactlyOne_showError _ _
        | ok data =>
          rw [hw] at hd
          simp only at hd
          rcases displayWeatherData_outcome env (showLoading dom) data co (jsTrim input) with
            ⟨d', hd', hview, -⟩ | ⟨d', hd'⟩
          · rw [hd'] at hd
            simp only [List.cons_append, List.nil_append, List.mem_cons, List.mem_singleton,
              List.not_mem_nil, or_false] at hd
            rcases hd with rfl | rfl | rfl
            · exact exactlyOne_showLoading _
            · exact exactlyOne_showLoading _
            · exact Or.inr (Or.inl hview)
          · rw [hd'] at hd
            simp only [List.cons_append, List.nil_append, List.mem_cons, List.mem_singleton,
              List.not_mem_nil, or_false] at hd
            rcases hd with rfl | rfl | rfl
            · exact exactlyOne_showLoading _
            · exact exactlyOne_showLoading _
            · exact exactlyOne_showError _ _

/-- Witness of C8: a search that was shown loading and then failed. -/
theorem exactly_one_panel_shown_witness :
    ExactlyOneShown
      ([ViewCall.loading, ViewCall.error "Please enter a location"].foldl ViewCall.run blankPage) :=
  exactly_one_panel_shown.1 blankPage
    [ViewCall.loading, ViewCall.error "Please enter a location"] (by decide)


/-! ### Claims about rendering -/

/-- C4: for every query that is non-empty after trimming, when geocoding
answers ok with at least one candidate and the forecast answers ok with a
well-formed payload, `handleSearch` ends in the Result view and the
coordinates text is `toFixed(2)` of the first candidate's parsed latitude, a
degree mark, a comma and a blank, `toFixed(2)` of its parsed longitude and a
degree mark; for lat `48.8566` and lon `2.3522` that text is `48.86°, 2.35°`. -/
theorem successful_search_shows_result (env : Env) (dom : DOM) (input : String)
    (r : GeoResponse) (c : Candidate) (rest : List Candidate) (w : WeatherResponse)
    (hq : jsTrim input ≠ "") (hg : env.fetchGeocode (jsTrim input) = some r)
    (hok : r.ok = true) (hd : r.data = c :: rest)
    (hw : env.fetchForecast (parseFloat c.lat) (parseFloat c.lon) = some w)
    (hwok : w.ok = true) (hwf : WellFormed w.body) :
    IsResultView (handleSearch env dom input).dom ∧
    (handleSearch env dom input).dom.locationCoords =
      toFixed2 (parseFloat c.lat) ++ "°, " ++ toFixed2 (parseFloat c.lon) ++ "°" ∧
    (c.lat = "48.8566" → c.lon = "2.3522" →
      (handleSearch env dom input).dom.locationCoords = "48.86°, 2.35°") := by
  have hco : (getCoordinates env (jsTrim input)).2 =
      .ok { lat := parseFloat c.lat, lon := parseFloat c.lon, displayName := c.display_name } := by
    rw [getCoordinates_result, hg]
    simp [hok, hd]
  have hwd : (getWeatherData env
      { lat := parseFloat c.lat, lon := parseFloat c.lon, displayName := c.display_name }).2 =
      .ok w.body := by
    rw [getWeatherData_result]
    simp only [hw, hwok]
    rfl
  obtain ⟨cur, t, cs, a, b, hcur, hdaily, -⟩ := hwf
  have hrun := handleSearch_geocoded env dom input _ hq hco
  rw [hwd] at hrun
  simp only at hrun
  rw [displayWeatherData_complete env _ w.body _ _ cur t cs a b hcur hdaily] at hrun
  simp only at hrun
  have hcoords : (handleSearch env dom input).dom.locationCoords =
      toFixed2 (parseFloat c.lat) ++ "°, " ++ toFixed2 (parseFloat c.lon) ++ "°" := by
    rw [hrun]; rfl
  refine ⟨?_, hcoords, ?_⟩
  · rw [hrun]
    exact ⟨rfl, rfl, rfl⟩
  · intro hlat hlon
    rw [hcoords, hlat, hlon]
    decide

/-- Witness of C4: the Paris scenario. -/
theorem successful_search_shows_result_witness :
    IsResultView (handleSearch parisEnv blankPage "Paris").dom ∧
    (handleSearch parisEnv blankPage "Paris").dom.locationCoords = "48.86°, 2.35°" :=
  have h := successful_search_shows_result parisEnv blankPage "Paris"
    { ok := true, data := [parisCandidate, otherCandidate] } parisCandidate [otherCandidate]
    { ok := true, body := samplePayload } (by decide) rfl rfl rfl rfl rfl
    ⟨_, _, _, _, _, rfl, rfl, rfl, rfl, rfl, rfl⟩
  ⟨h.1, h.2.2 rfl rfl⟩

/-- Counterexample to C7 as stated: an ok forecast response whose daily
sequences hold three entries ends the search in the Result view, not in the
Error view, and the cards for the missing days are rendered with the label
`undefined` and the temperatures `NaN°`. -/
theorem short_payload_reaches_result :
    IsResultView (handleSearch shortEnv blankPage "Paris").dom ∧
    ¬ IsErrorView (handleSearch shortEnv blankPage "Paris").dom
        "Unable to fetch weather data. Please try again." ∧
    (handleSearch shortEnv blankPage "Paris").dom.forecastContainer[3]? =
      some { dayName := "undefined", iconClass := "fas fa-question",
             high := "NaN°", low := "NaN°" } := by
  decide

theorem card_today (env : Env) (t : List String) (c : List Int) (a b : List JSNum) :
    (card env t c a b 0).dayName = "Today" :=
  rfl

theorem card_label_beyond (env : Env) (t : List String) (c : List Int) (a b : List JSNum)
    (i : Nat) (hi : 1 ≤ i) (h : t.length ≤ i) : (card env t c a b i).dayName = "undefined" := by
  have hn : t[i]? = none := List.getElem?_eq_none h
  have h0 : i ≠ 0 := by omega
  simp [card, dayLabel, hn, newDate, getDay, h0]

theorem card_icon_beyond (env : Env) (t : List String) (cs : List Int) (a b : List JSNum)
    (i : Nat) (h : cs.length ≤ i) : (card env t cs a b i).iconClass = "fas fa-question" := by
  have hn : cs[i]? = none := List.getElem?_eq_none h
  simp [card, hn, getWeatherIconClass, lookupOr]

theorem card_high_beyond (env : Env) (t : List String) (c : List Int) (a b : List JSNum)
    (i : Nat) (h : a.length ≤ i) : (card env t c a b i).high = "NaN°" := by
  have hn : a[i]? = none := List.getElem?_eq_none h
  simp only [card, hn]
  decide

theorem card_low_beyond (env : Env) (t : List String) (c : List Int) (a b : List JSNum)
    (i : Nat) (h : b.length ≤ i) : (card env t c a b i).low = "NaN°" := by
  have hn : b[i]? = none := List.getElem?_eq_none h
  simp only [card, hn]
  decide

/-- C7, amended: when the forecast response is ok but its payload lacks the
current record, the daily record, or one of the four daily arrays, the search
ends in the Error view with the generic text, not in the Result view, and the
forecast container is left empty or as it was before the search; when the
current record, the daily record and the four arrays are all present, no
further shape is checked: the search ends in the Result view with 7 cards, an
absent temperature of the current record is shown as `NaN` and an absent
humidity as `undefined%`, card 0 is labelled `Today`, a card from 1 to 6 whose
index is beyond the end of the time array is labelled `undefined`, and a card
whose index is beyond the end of the code array or of a temperature array
gets the unknown icon or `NaN°`. -/
theorem incomplete_payload_outcome (env : Env) (dom : DOM) (input : String)
    (r : GeoResponse) (c : Candidate) (rest : List Candidate) (w : WeatherResponse)
    (hq : jsTrim input ≠ "") (hg : env.fetchGeocode (jsTrim input) = some r)
    (hok : r.ok = true) (hd : r.data = c :: rest)
    (hw : env.fetchForecast (parseFloat c.lat) (parseFloat c.lon) = some w)
    (hwok : w.ok = true) :
    ((w.body.current = none ∨ w.body.daily = none ∨
        ∃ d, w.body.daily = some d ∧ ¬ d.Complete) →
      IsErrorView (handleSearch env dom input).dom
          "Unable to fetch weather data. Please try again." ∧
        ¬ IsResultView (handleSearch env dom input).dom ∧
        ((handleSearch env dom input).dom.forecastContainer = [] ∨
          (handleSearch env dom input).dom.forecastContainer = dom.forecastContainer)) ∧
    (∀ cur t cs a b, w.body.current = some cur →
      w.body.daily = some ⟨some t, some cs, some a, some b⟩ →
      IsResultView (handleSearch env dom input).dom ∧
        (handleSearch env dom input).dom.forecastContainer.length = 7 ∧
        (cur.temperature_2m = none → (handleSearch env dom input).dom.temperature = "NaN") ∧
        (cur.relative_humidity_2m = none →
          (handleSearch env dom input).dom.humidity = "undefined%") ∧
        ∀ i, i < 7 →
          ∃ item, (handleSearch env dom input).dom.forecastContainer[i]? = some item ∧
            (i = 0 → item.dayName = "Today") ∧
            (1 ≤ i → t.length ≤ i → item.dayName = "undefined") ∧
            (cs.length ≤ i → item.iconClass = "fas fa-question") ∧
            (a.length ≤ i → item.high = "NaN°") ∧
            (b.length ≤ i → item.low = "NaN°")) := by
  have hco : (getCoordinates env (jsTrim input)).2 =
      .ok { lat := parseFloat c.lat, lon := parseFloat c.lon, displayName := c.display_name } := by
    rw [getCoordinates_result, hg]
    simp [hok, hd]
  have hwd : (getWeatherData env
      { lat := parseFloat c.lat, lon := parseFloat c.lon, displayName := c.display_name }).2 =
      .ok w.body := by
    rw [getWeatherData_result]
    simp only [hw, hwok]
    rfl
  have hrun := handleSearch_geocoded env dom input _ hq hco
  rw [hwd] at hrun
  simp only at hrun
  constructor
  · intro hbad
    cases hcur : w.body.current with
    | none =>
      rw [displayWeatherData_noCurrent env _ w.body _ _ hcur] at hrun
      simp only at hrun
      rw [hrun]
      exact ⟨isErrorView_showError _ _, not_result_of_error (isErrorView_showError _ _),
        Or.inr rfl⟩
    | some cur =>
      have hdaily : w.body.daily = none ∨ ∃ d, w.body.daily = some d ∧ ¬ d.Complete := by
        rcases hbad with h | h | h
        · rw [hcur] at h; exact absurd h (by simp)
        · exact Or.inl h
        · exact Or.inr h
      rw [displayWeatherData_noDaily env _ w.body _ _ cur hcur hdaily] at hrun
      simp only at hrun
      rw [hrun]
      exact ⟨isErrorView_showError _ _, not_result_of_error (isErrorView_showError _ _),
        Or.inl rfl⟩
  · intro cur t cs a b hcur hdaily
    rw [displayWeatherData_complete env _ w.body _ _ cur t cs a b hcur hdaily] at hrun
    simp only at hrun
    rw [hrun]
    refine ⟨⟨rfl, rfl, rfl⟩, by simp [showWeatherCard], ?_, ?_, ?_⟩
    · intro hnone
      simp only [showWeatherCard, renderCurrent, hnone]
      decide
    · intro hnone
      simp only [showWeatherCard, renderCurrent, hnone]
      decide
    · intro i hi
      refine ⟨card env t cs a b i, ?_, ?_, card_label_beyond env t cs a b i,
        card_icon_beyond env t cs a b i, card_high_beyond env t cs a b i,
        card_low_beyond env t cs a b i⟩
      · simp only [showWeatherCard]
        rw [List.getElem?_map, List.getElem?_range hi]
        rfl
      · intro h0
        subst h0
        exact card_today env t cs a b

/-- Witness of C7, amended: a payload with no daily record ends in the Error
view, and the payload with three-entry arrays ends in the Result view. -/
theorem incomplete_payload_outcome_witness :
    IsErrorView (handleSearch noDailyEnv blankPage "Paris").dom
        "Unable to fetch weather data. Please try again." ∧
      IsResultView (handleSearch shortEnv blankPage "Paris").dom :=
  ⟨((incomplete_payload_outcome noDailyEnv blankPage "Paris"
      { ok := true, data := [parisCandidate, otherCandidate] } parisCandidate [otherCandidate]
      { ok := true, body := { current := samplePayload.current, daily := none } }
      (by decide) rfl rfl rfl rfl rfl).1 (Or.inr (Or.inl rfl))).1,
   ((incomplete_payload_outcome shortEnv blankPage "Paris"
      { ok := true, data := [parisCandidate, otherCandidate] } parisCandidate [otherCandidate]
      { ok := true, body := shortPayload }
      (by decide) rfl rfl rfl rfl rfl).2 _ _ _ _ _ rfl rfl).1⟩


/-- Counterexample to C9 as stated: on the page an earlier search has left,
two calls of `displayWeatherData` with a payload that has no current record
throw before the forecast container is emptied: the container still holds the
7 cards of the earlier search, which are not the cards of this payload, the
earlier temperature is still there next to the new location name, and the
weather card is still on display. -/
theorem stale_cards_survive_render :
    (pageAfter (displayWeatherData parisEnv
        (pageAfter (displayWeatherData parisEnv earlierPage noCurrentPayload lyonCoordinates
          "Lyon"))
        noCurrentPayload lyonCoordinates "Lyon")).forecastContainer =
      earlierPage.forecastContainer ∧
    earlierPage.forecastContainer.length = 7 ∧
    some earlierPage.forecastContainer ≠ cardsOf parisEnv noCurrentPayload ∧
    (pageAfter (displayWeatherData parisEnv
        (pageAfter (displayWeatherData parisEnv earlierPage noCurrentPayload lyonCoordinates
          "Lyon"))
        noCurrentPayload lyonCoordinates "Lyon")).temperature = "5" ∧
    (pageAfter (displayWeatherData parisEnv
        (pageAfter (displayWeatherData parisEnv earlierPage noCurrentPayload lyonCoordinates
          "Lyon"))
        noCurrentPayload lyonCoordinates "Lyon")).locationName = "Lyon" ∧
    IsResultView (pageAfter (displayWeatherData parisEnv
        (pageAfter (displayWeatherData parisEnv earlierPage noCurrentPayload lyonCoordinates
          "Lyon"))
        noCurrentPayload lyonCoordinates "Lyon")) := by
  decide

/-- C9, amended: `displayWeatherData` is idempotent for every payload: from
every page, a second call with the same arguments leaves the page and the
outcome of the first call; and when the payload has the current record, the
daily record and the four daily arrays, the call returns in the Result view,
the forecast container then holds exactly the 7 cards built from that payload,
and every field of the page except the text of the hidden error banner is
determined by the arguments alone, whatever page the call started from. -/
theorem displayWeatherData_idempotent (env : Env) (dom : DOM) (data : WeatherData)
    (co : Coordinates) (q : String) :
    displayWeatherData env (pageAfter (displayWeatherData env dom data co q)) data co q =
      displayWeatherData env dom data co q ∧
    (∀ cur t cs a b, data.current = some cur →
      data.daily = some ⟨some t, some cs, some a, some b⟩ →
      ∃ d, displayWeatherData env dom data co q = .ok d ∧ IsResultView d ∧
        d.forecastContainer.length = 7 ∧
        d.forecastContainer = (List.range 7).map (card env t cs a b) ∧
        ∀ dom', displayWeatherData env dom' data co q =
          .ok { d with errorText := dom'.errorText }) := by
  constructor
  · cases hc : data.current with
    | none =>
      rw [displayWeatherData_noCurrent env dom data co q hc]
      simp only [pageAfter]
      rw [displayWeatherData_noCurrent env _ data co q hc]
    | some cur =>
      have hcases : (∃ t c a b, data.daily = some ⟨some t, some c, some a, some b⟩) ∨
          (data.daily = none ∨ ∃ d, data.daily = some d ∧ ¬ d.Complete) := by
        cases hd : data.daily with
        | none => exact Or.inr (Or.inl rfl)
        | some d =>
          rcases daily_complete_cases d with ⟨t, c, a, b, rfl⟩ | hn
          · exact Or.inl ⟨t, c, a, b, rfl⟩
          · exact Or.inr (Or.inr ⟨d, rfl, hn⟩)
      rcases hcases with ⟨t, c, a, b, hd⟩ | hbad
      · rw [displayWeatherData_complete env dom data co q cur t c a b hc hd]
        simp only [pageAfter]
        rw [displayWeatherData_complete env _ data co q cur t c a b hc hd]
        rfl
      · rw [displayWeatherData_noDaily env dom data co q cur hc hbad]
        simp only [pageAfter]
        rw [displayWeatherData_noDaily env _ data co q cur hc hbad]
        rfl
  · intro cur t cs a b hc hd
    refine ⟨_, displayWeatherData_complete env dom data co q cur t cs a b hc hd,
      ⟨rfl, rfl, rfl⟩, by simp [showWeatherCard], rfl, ?_⟩
    intro dom'
    rw [displayWeatherData_complete env dom' data co q cur t cs a b hc hd]
    rfl

/-- Witness of C9, amended: the sample payload rendered on a blank page. -/
theorem displayWeatherData_idempotent_witness :
    ∃ d, displayWeatherData parisEnv blankPage samplePayload lyonCoordinates "Lyon" = .ok d ∧
      d.forecastContainer.length = 7 :=
  let ⟨d, hd, _, hlen, _⟩ :=
    (displayWeatherData_idempotent parisEnv blankPage samplePayload lyonCoordinates "Lyon").2
      _ _ _ _ _ rfl rfl
  ⟨d, hd, hlen⟩

/-! ### The display name of the geocoder -/

theorem card_congr (env env' : Env) (h : env'.tzOffsetMin = env.tzOffsetMin) (t : List String)
    (c : List Int) (a b : List JSNum) : card env' t c a b = card env t c a b := by
  funext i
  simp [card, dayLabel, h]

theorem displayWeatherData_congr (env env' : Env) (h : env'.tzOffsetMin = env.tzOffsetMin)
    (dom : DOM) (data : WeatherData) (co co' : Coordinates) (q : String)
    (hlat : co'.lat = co.lat) (hlon : co'.lon = co.lon) :
    displayWeatherData env' dom data co' q = displayWeatherData env dom data co q := by
  have hr : ∀ cur, renderCurrent dom cur co' q = renderCurrent dom cur co q := by
    intro cur
    simp [renderCurrent, hlat, hlon]
  cases hc : data.current with
  | none =>
    rw [displayWeatherData_noCurrent env' dom data co' q hc,
      displayWeatherData_noCurrent env dom data co q hc, hlat, hlon]
  | some cur =>
    cases hd : data.daily with
    | none =>
      rw [displayWeatherData_noDaily env' dom data co' q cur hc (Or.inl hd),
        displayWeatherData_noDaily env dom data co q cur hc (Or.inl hd), hr]
    | some d =>
      rcases daily_complete_cases d with ⟨t, c, a, b, rfl⟩ | hn
      · rw [displayWeatherData_complete env' dom data co' q cur t c a b hc hd,
          displayWeatherData_complete env dom data co q cur t c a b hc hd, hr,
          card_congr env env' h]
      · rw [displayWeatherData_noDaily env' dom data co' q cur hc (Or.inr ⟨d, hd, hn⟩),
          displayWeatherData_noDaily env dom data co q cur hc (Or.inr ⟨d, hd, hn⟩), hr]

theorem getCoordinates_congr (env env' : Env) (q : String)
    (h : SameUpToDisplayName (env'.fetchGeocode q) (env.fetchGeocode q)) :
    (∃ e, (getCoordinates env' q).2 = .error e ∧ (getCoordinates env q).2 = .error e) ∨
    (∃ co' co, (getCoordinates env' q).2 = .ok co' ∧ (getCoordinates env q).2 = .ok co ∧
      co'.lat = co.lat ∧ co'.lon = co.lon) := by
  rw [getCoordinates_result, getCoordinates_result]
  unfold SameUpToDisplayName at h
  cases h1 : env'.fetchGeocode q with
  | none =>
    cases h2 : env.fetchGeocode q with
    | none => exact Or.inl ⟨_, rfl, rfl⟩
    | some r => rw [h1, h2] at h; simp at h
  | some r' =>
    cases h2 : env.fetchGeocode q with
    | none => rw [h1, h2] at h; simp at h
    | some r =>
      rw [h1, h2] at h
      simp only [Option.map_some', Option.some.injEq, Prod.mk.injEq] at h
      obtain ⟨hok, hdata⟩ := h
      rcases r' with ⟨ok', data'⟩
      rcases r with ⟨ok, data⟩
      simp only at hok hdata
      subst hok
      cases ok'
      · exact Or.inl ⟨_, rfl, rfl⟩
      · cases data' with
        | nil =>
          cases data with
          | nil => exact Or.inl ⟨_, rfl, rfl⟩
          | cons c rest => simp at hdata
        | cons c' rest' =>
          cases data with
          | nil => simp at hdata
          | cons c rest =>
            simp only [List.map_cons, List.cons.injEq, Prod.mk.injEq] at hdata
            obtain ⟨⟨hlat, hlon⟩, -⟩ := hdata
            refine Or.inr ⟨_, _, rfl, rfl, ?_, ?_⟩
            · simp [hlat]
            · simp [hlon]

/-- C10: whenever a search ends in the Result view, the location name shown is
the text of the input with the white space at both ends removed; and two
browsers whose geocoding answers differ at most in the display names of the
candidates (same forecast service, same time zone) give the same run of
`handleSearch`: the same page, requests, pages on display and logged errors. -/
theorem location_name_is_trimmed_query :
    (∀ (env : Env) (dom : DOM) (input : String),
      IsResultView (handleSearch env dom input).dom →
        (handleSearch env dom input).dom.locationName = jsTrim input) ∧
    (∀ (env env' : Env) (dom : DOM) (input : String),
      env'.fetchForecast = env.fetchForecast → env'.tzOffsetMin = env.tzOffsetMin →
      SameUpToDisplayName (env'.fetchGeocode (jsTrim input)) (env.fetchGeocode (jsTrim input)) →
        handleSearch env' dom input = handleSearch env dom input) := by
  constructor
  · intro env dom input hres
    by_cases hq : jsTrim input = ""
    · rw [handleSearch_blank env dom input hq] at hres
      exact absurd hres (not_result_of_error (isErrorView_showError _ _))
    · cases hg : (getCoordinates env (jsTrim input)).2 with
      | error e =>
        rw [handleSearch_geocodeFailed env dom input e hq hg] at hres
        exact absurd hres (not_result_of_error (isErrorView_showError _ _))
      | ok co =>
        rw [handleSearch_geocoded env dom input co hq hg] at hres ⊢
        cases hw : (getWeatherData env co).2 with
        | error e =>
          rw [hw] at hres
          exact absurd hres (not_result_of_error (isErrorView_showError _ _))
        | ok data =>
          rw [hw] at hres
          simp only at hres ⊢
          rcases displayWeatherData_outcome env (showLoading dom) data co (jsTrim input) with
            ⟨d, hd, -, hname, -⟩ | ⟨d, hd⟩
          · rw [hd]
            exact hname
          · rw [hd] at hres
            exact absurd hres (not_result_of_error (isErrorView_showError _ _))
  · intro env env' dom input hf htz hsame
    by_cases hq : jsTrim input = ""
    · rw [handleSearch_blank env dom input hq, handleSearch_blank env' dom input hq]
    · rcases getCoordinates_congr env env' (jsTrim input) hsame with
        ⟨e, h1, h2⟩ | ⟨co', co, h1, h2, hlat, hlon⟩
      · rw [handleSearch_geocodeFailed env dom input e hq h2,
          handleSearch_geocodeFailed env' dom input e hq h1]
      · rw [handleSearch_geocoded env dom input co hq h2,
          handleSearch_geocoded env' dom input co' hq h1]
        have hwd : (getWeatherData env' co').2 = (getWeatherData env co).2 := by
          rw [getWeatherData_result, getWeatherData_result, hf, hlat, hlon]
        rw [hwd, hlat, hlon]
        cases (getWeatherData env co).2 with
        | error e => rfl
        | ok data =>
          simp only
          rw [displayWeatherData_congr env env' htz (showLoading dom) data co co' (jsTrim input)
            hlat hlon]

/-- Witness of C10: the Paris scenario with blanks around the query. -/
theorem location_name_is_trimmed_query_witness :
    (handleSearch parisEnv blankPage "  Paris ").dom.locationName = "Paris" :=
  location_name_is_trimmed_query.1 parisEnv blankPage "  Paris " (by decide)

/-! ### Weekday labels -/

theorem daysBeforeMonth_eq (y : Int) (m : Nat) (h1 : 1 ≤ m) (h12 : m ≤ 12) :
    (daysBeforeMonth y m : Int) =
      ([0, 31, 59, 90, 120, 151, 181, 212, 243, 273, 304, 334][m - 1]?).getD 0 +
        (if 3 ≤ m ∧ isLeapYear y = true then 1 else 0) := by
  interval_cases m <;> cases hl : isLeapYear y <;>
    simp [daysBeforeMonth, daysInMonth, List.range_succ, hl]

theorem dayFromYear_mod (y x : Int) :
    (dayFromYear y + x) % 7 =
      (y + (y - 1) / 4 - (y - 1) / 100 + (y - 1) / 400 + x + 3) % 7 := by
  unfold dayFromYear
  have e1 : (y - 1969) / 4 = (y - 1) / 4 - 492 := by omega
  have e2 : (y - 1901) / 100 = (y - 1) / 100 - 19 := by omega
  have e3 : (y - 1601) / 400 = (y - 1) / 400 - 4 := by omega
  rw [e1, e2, e3]
  omega

theorem leap_correction (y : Int) :
    y / 4 - y / 100 + y / 400 =
      (y - 1) / 4 - (y - 1) / 100 + (y - 1) / 400 + (if isLeapYear y = true then 1 else 0) := by
  have hleap : isLeapYear y = true ↔ ((y % 4 = 0 ∧ y % 100 ≠ 0) ∨ y % 400 = 0) := by
    simp [isLeapYear]
  have f4 : y / 4 = (y - 1) / 4 + (if y % 4 = 0 then 1 else 0) := by split <;> omega
  have f100 : y / 100 = (y - 1) / 100 + (if y % 100 = 0 then 1 else 0) := by split <;> omega
  have f400 : y / 400 = (y - 1) / 400 + (if y % 400 = 0 then 1 else 0) := by split <;> omega
  have d4 : y % 400 = 0 → y % 100 = 0 := by omega
  have d100 : y % 100 = 0 → y % 4 = 0 := by omega
  rw [f4, f100, f400]
  by_cases hl : isLeapYear y = true
  · rw [if_pos hl]
    rw [hleap] at hl
    split_ifs <;> omega
  · rw [if_neg hl]
    rw [hleap] at hl
    split_ifs <;> omega

theorem makeDay_weekday (y : Int) (m d : Nat) (h1 : 1 ≤ m) (h12 : m ≤ 12) :
    ((makeDay y m d + 4) % 7).toNat = calendarWeekday y m d := by
  unfold makeDay calendarWeekday
  rw [daysBeforeMonth_eq y m h1 h12]
  have hmod : ∀ k : Int, (dayFromYear y + k + (d : Nat) - 1 + 4) % 7 =
      (y + (y - 1) / 4 - (y - 1) / 100 + (y - 1) / 400 + (k + (d : Nat) - 1 + 4) + 3) % 7 := by
    intro k
    rw [← dayFromYear_mod]
    congr 1
    omega
  rw [hmod]
  have hl := leap_correction y
  congr 1
  interval_cases m <;> simp <;> split_ifs at hl ⊢ <;> omega

theorem parseIsoDate_month (s : String) (y : Int) (m d : Nat)
    (h : parseIsoDate s = some (y, m, d)) : 1 ≤ m ∧ m ≤ 12 := by
  unfold parseIsoDate at h
  split at h
  · simp only at h
    split at h
    · split at h
      · rename_i h2
        simp only [Option.some.injEq, Prod.mk.injEq] at h
        obtain ⟨-, hm, -⟩ := h
        rw [← hm]
        exact ⟨h2.1, h2.2.1⟩
      · exact absurd h (by simp)
    · exact absurd h (by simp)
  · exact absurd h (by simp)

theorem getDay_east (tz n : Int) (h0 : 0 ≤ tz) (h1 : tz < 1440) :
    getDay tz (some (n * msPerDay)) = some ((n + 4) % 7).toNat := by
  unfold getDay msPerDay
  have : (n * 86400000 + tz * 60000) / 86400000 = n := by omega
  simp only [this]

theorem days_getD (k : Nat) (h : k < 7) : some ((days[k]?).getD "undefined") = days[k]? := by
  interval_cases k <;> rfl

theorem calendarWeekday_lt (y : Int) (m d : Nat) : calendarWeekday y m d < 7 := by
  unfold calendarWeekday
  simp only
  omega

/-- East of UTC (an offset from 0 up to, not including, 24 hours) a date-only
ISO string is labelled with the weekday name of the date it writes. -/
theorem dayLabel_east (env : Env) (i : Nat) (s : String) (h0 : 0 ≤ env.tzOffsetMin)
    (h1 : env.tzOffsetMin < 1440) (hi : i ≠ 0) (hs : (parseIsoDate s).isSome = true) :
    some (dayLabel env i (newDate (some s))) = weekdayName s := by
  obtain ⟨⟨y, m, d⟩, hp⟩ := Option.isSome_iff_exists.1 hs
  obtain ⟨hm1, hm12⟩ := parseIsoDate_month s y m d hp
  unfold dayLabel newDate weekdayName
  simp only [hp, if_neg hi]
  rw [getDay_east _ _ h0 h1]
  simp only
  rw [makeDay_weekday y m d hm1 hm12]
  exact days_getD _ (calendarWeekday_lt y m d)

/-- The weekday labels are right east of UTC: for every local offset from 0 up
to, not including, 24 hours, `updateForecast` on four present daily arrays
returns 7 cards, card 0 labelled `Today`, and each card `i` in 1..6 whose
`daily.time[i]` is a date-only ISO string labelled with the three-letter name
of the weekday of the date written there. -/
theorem forecast_labels_east_of_utc (env : Env) (dom : DOM) (t : List String) (c : List Int)
    (a b : List JSNum) (h0 : 0 ≤ env.tzOffsetMin) (h1 : env.tzOffsetMin < 1440) :
    ∃ d, updateForecast env dom (some ⟨some t, some c, some a, some b⟩) = .ok d ∧
      d.forecastContainer.length = 7 ∧
      (d.forecastContainer[0]?).map ForecastItem.dayName = some "Today" ∧
      ∀ i s, 1 ≤ i → i < 7 → t[i]? = some s → (parseIsoDate s).isSome = true →
        (d.forecastContainer[i]?).map ForecastItem.dayName = weekdayName s := by
  refine ⟨_, updateForecast_complete env dom t c a b, by simp, ?_, ?_⟩
  · simp [range_seven, card, dayLabel]
  · intro i s hi1 hi7 hts hs
    have hget : ((List.range 7).map (card env t c a b))[i]? = some (card env t c a b i) := by
      rw [List.getElem?_map, List.getElem?_range hi7]
      rfl
    simp only [hget, Option.map_some']
    rw [← dayLabel_east env i s h0 h1 (by omega) hs]
    simp [card, hts]

/-- Witness: the sample week in the browser one hour east of UTC, where the
card for `2024-01-15` carries the weekday name of that date. -/
theorem forecast_labels_east_of_utc_witness :
    ∃ d, updateForecast parisEnv blankPage samplePayload.daily = .ok d ∧
      d.forecastContainer.length = 7 ∧
      (d.forecastContainer[1]?).map ForecastItem.dayName = weekdayName "2024-01-15" :=
  let ⟨d, hd, hlen, _, hrest⟩ := forecast_labels_east_of_utc parisEnv blankPage
    ["2024-01-14", "2024-01-15", "2024-01-16", "2024-01-17", "2024-01-18", "2024-01-19",
      "2024-01-20"]
    [61, 3, 0, 2, 71, 95, 45]
    (["6.5", "7.1", "4.0", "3.2", "1.5", "2.8", "5.0"].map parseFloat)
    (["1.2", "0.4", "-1.6", "-2.5", "-3.0", "-0.5", "0.9"].map parseFloat)
    (by decide) (by decide)
  ⟨d, hd, hlen, hrest 1 "2024-01-15" (by decide) (by decide) rfl (by decide)⟩

/-- C6, the code at a failing input: in a browser five hours west of UTC the
card for `2024-01-15`, a Monday, is labelled `Sun`, and so every card after
`Today` carries the name of the day before the date it stands for. -/
theorem weekday_label_west_of_utc :
    (pageAfter (updateForecast westEnv blankPage samplePayload.daily)).forecastContainer.map
        ForecastItem.dayName = ["Today", "Sun", "Mon", "Tue", "Wed", "Thu", "Fri"] ∧
    ["2024-01-14", "2024-01-15", "2024-01-16", "2024-01-17", "2024-01-18", "2024-01-19",
        "2024-01-20"].map weekdayName =
      [some "Sun", some "Mon", some "Tue", some "Wed", some "Thu", some "Fri", some "Sat"] := by
  decide

end WeatherApp
